import Mathlib

/-!
Verification of the honeybee radiance pipeline against its specification.

This file gives a shallow embedding, in Lean 4, of the parts of the
repository that the checked claims are about:

- SunMatrix (src/honeybee/radiance/sky/sunmatrix.py): the cache check
  (hoursMatch and the reuse branch of execute) and the generation phase of
  execute (the per-hour gendaylit loop, the retained-source bookkeeping, the
  sun-matrix header and the per-source matrix rows).
- GridBased (src/honeybee/radiance/recipe/gridbased.py): the
  simulationType setter and the results assembler with its running row
  offset.
- DaylightCoeffGridBased (src/honeybee/radiance/recipe/dc/gridbased.py):
  the results assembler.
- ImageBasedParameters (src/honeybee/radiance/parameters/imagebased.py):
  the quality setter.

Python floats are embedded as rationals, Python lists as Lean lists, the
filesystem as a partial map from paths to file contents, and the external
gendaylit process as an oracle function from hour-of-year to its parsed
token list.  A Python statement that can raise (list indexing out of
range, max() of an empty sequence) is embedded with Option: none models
the raised exception.
-/

/-! ## Data model: location, weather series, SunMatrix -/

/-- Embeds the ladybug Location fields consumed by sunmatrix.py:
stationId, latitude and longitude feed SunMatrix.name (lines 71-79),
latitude, longitude and timezone feed execute (lines 139-142). -/
structure Location where
  stationId : String
  latitude : ℚ
  longitude : ℚ
  timezone : ℚ
deriving DecidableEq, Repr

/-- Embeds the ladybug Wea interface consumed by sunmatrix.py: a location
plus per-hour direct-normal and diffuse-horizontal irradiance series
(indexed by integer hour of year, as wea.directNormalRadiation[intHOY]). -/
structure Wea where
  location : Location
  directNormalRadiation : Nat → ℚ
  diffuseHorizontalRadiation : Nat → ℚ

/-- Embeds the SunMatrix object state (sunmatrix.py lines 28-33): a Wea,
a north rotation and the requested hours.  Hours are integer hours of the
year; the Python default hoys=range(8760) is just one possible value. -/
structure SunMatrix where
  wea : Wea
  north : ℚ
  hoys : List Nat

/-- Embeds SunMatrix.name (sunmatrix.py lines 71-79):
"sunmtx_r{}_{}_{}_{}".format(stationId, latitude, longitude, north). -/
def SunMatrix.name (m : SunMatrix) : String :=
  "sunmtx_r" ++ m.wea.location.stationId ++ "_" ++ toString m.wea.location.latitude
    ++ "_" ++ toString m.wea.location.longitude ++ "_" ++ toString m.north

/-- Embeds SunMatrix.analemmafile (sunmatrix.py line 84). -/
def SunMatrix.analemmafile (m : SunMatrix) : String := m.name ++ ".ann"

/-- Embeds SunMatrix.sunlistfile (sunmatrix.py line 89). -/
def SunMatrix.sunlistfile (m : SunMatrix) : String := m.name ++ ".sun"

/-- Embeds SunMatrix.sunmtxfile (sunmatrix.py line 94). -/
def SunMatrix.sunmtxfile (m : SunMatrix) : String := m.name ++ ".mtx"

/-! ## Filesystem model and the cache-reuse step -/

/-- A filesystem is a partial map from paths to file contents; none means
the file does not exist. -/
abbrev FS := String → Option String

/-- Embeds os.path.isfile. -/
def isfile (fs : FS) (p : String) : Bool := (fs p).isSome

/-- Embeds os.path.join for the working directory (os.sep written as /). -/
def pathJoin (dir p : String) : String := dir ++ "/" ++ p

/-- Embeds the expression ','.join(str(h) for h in self.hoys) used both by
hoursMatch and by the sidecar writer (sunmatrix.py lines 109 and 136). -/
def joinHoys (hoys : List Nat) : String :=
  String.intercalate "," (hoys.map (fun h => Nat.repr h))

/-- Embeds SunMatrix.hoursMatch (sunmatrix.py lines 101-109): False when
the hours file does not exist, otherwise exact string comparison of the
file content with the comma-joined hour list followed by a newline. -/
def SunMatrix.hoursMatch (m : SunMatrix) (fs : FS) (hoursFile : String) : Bool :=
  match fs hoursFile with
  | none => false
  | some line => line == joinHoys m.hoys ++ "\n"

/-- Embeds the reuse branch of SunMatrix.execute (sunmatrix.py lines
126-133): returns true exactly when execute returns the three cached paths
without regenerating (the for/else loop breaks on the first missing file,
and regeneration follows unless every file existed). -/
def SunMatrix.executeReuseStep (m : SunMatrix) (fs : FS) (workingDir : String)
    (reuse : Bool) : Bool :=
  let fp := pathJoin workingDir m.analemmafile
  let lfp := pathJoin workingDir m.sunlistfile
  let mfp := pathJoin workingDir m.sunmtxfile
  let hrf := pathJoin workingDir (m.name ++ ".hrs")
  if reuse then
    if m.hoursMatch fs hrf then
      isfile fs fp && isfile fs lfp && isfile fs mfp
    else false
  else false

/-! ## The generation phase of SunMatrix.execute -/

/-- Value of one decimal digit character. -/
def digitVal (c : Char) : Nat := c.toNat - 48

/-- Decimal value of a digit-character list (most significant first). -/
def digitsToNat (cs : List Char) : Nat :=
  cs.foldl (fun a c => a * 10 + digitVal c) 0

/-- Embeds Python float() on the numeric tokens printed by gendaylit, as a
rational: an optional leading minus sign, an integer part and an optional
fractional part separated by a dot.  Only well-formed numerals matter to
the theorems (Python float() raises on anything else). -/
def pyFloatCore (cs : List Char) : ℚ :=
  let ip := cs.takeWhile (fun c => c ≠ '.')
  match cs.dropWhile (fun c => c ≠ '.') with
  | [] => (digitsToNat ip : ℚ)
  | _ :: frac => (digitsToNat ip : ℚ) + (digitsToNat frac : ℚ) / (10 : ℚ) ^ frac.length

/-- Python float() over a token string: optional sign, then pyFloatCore. -/
def pyFloat (s : String) : ℚ :=
  match s.data with
  | '-' :: cs => -(pyFloatCore cs)
  | cs => pyFloatCore cs

/-- Embeds the retention test of SunMatrix.execute (sunmatrix.py line 183):
if sunCurrentValue and max(map(float, sunCurrentValue[6:9])).  Python
short-circuits on an empty token list (some false); max() of an empty
slice raises ValueError (none); otherwise the hour is retained exactly
when the maximum of the parsed triplet is nonzero (truthy). -/
def retainCheck (tokens : List String) : Option Bool :=
  if tokens.isEmpty then some false
  else
    match (((tokens.drop 6).take 3).map pyFloat).max? with
    | none => none
    | some mx => some (decide (mx ≠ 0))

/-- Embeds the per-hour loop of SunMatrix.execute (sunmatrix.py lines
155-187) over the requested hours.  Arguments dnr and dhr are the weather
series, gd is the gendaylit oracle: the cleaned whitespace token list that
lines 170-180 produce for a given hour.  Returns the list of hours for
which gendaylit was invoked, paired with some (sunValues, sunUpHours) on
normal termination and none when the loop raises (ValueError from max() on
a short token list, or IndexError from the solar-name assignments
sunCurrentValue[2] and sunCurrentValue[9] on lines 184-185, which need at
least 10 tokens). -/
def sunLoop (dnr dhr : Nat → ℚ) (gd : Nat → List String) (hoys : List Nat)
    (sunValues : List (List String)) (sunUpHours : List Nat) :
    List Nat × Option (List (List String) × List Nat) :=
  match hoys with
  | [] => ([], some (sunValues, sunUpHours))
  | h :: rest =>
    if dnr h + dhr h = 0 then
      -- no need to run gendaylit as there is no radiation / sun (line 160-162)
      sunLoop dnr dhr gd rest sunValues sunUpHours
    else
      let tokens := gd h
      match retainCheck tokens with
      | none => ([h], none)
      | some false =>
        let next := sunLoop dnr dhr gd rest sunValues sunUpHours
        (h :: next.1, next.2)
      | some true =>
        if 10 ≤ tokens.length then
          let sid := "solar" ++ Nat.repr (sunValues.length + 1)
          let tokens1 := (tokens.set 2 sid).set 9 sid
          let next := sunLoop dnr dhr gd rest (sunValues ++ [tokens1]) (sunUpHours ++ [h])
          (h :: next.1, next.2)
        else ([h], none)
  termination_by structural hoys

/-- Embeds the header block of the sun matrix (sunmatrix.py lines
205-212), with latitude and longitude as bound in execute (lines 141 and
208: latitude = location.latitude, longitude = -location.longitude, and
the header prints latitude and -longitude). -/
def sunMtxFileHeader (latitude longitude : ℚ) (numOfSuns ncols : Nat) : List String :=
  ["#?RADIANCE",
   "Sun matrix created by Honeybee",
   "LATLONG= " ++ toString latitude ++ " " ++ toString longitude,
   "NROWS=" ++ Nat.repr numOfSuns,
   "NCOLS=" ++ Nat.repr ncols,
   "NCOMP=3",
   "FORMAT=ascii"]

/-- Embeds one iteration of the matrix row writer (sunmatrix.py lines
218-221): a row of ncols zero triplets with the radiance triplet written
at index idxHour.  The source indexes with sunRadList[sunUpHours[idx]],
i.e. by the absolute hour of year; Python list assignment raises
IndexError when the index is out of range, which none models. -/
def makeRow (ncols : Nat) (idxHour : Nat) (triplet : String) : Option (List String) :=
  if idxHour < ncols then some ((List.replicate ncols "0 0 0").set idxHour triplet)
  else none

/-- Embeds the row loop of the matrix writer (sunmatrix.py lines 218-221):
one row per retained source, pairing sunValues[idx] with sunUpHours[idx]
(an unequal length, impossible for states produced by sunLoop, would be an
IndexError as well).  The written triplet is ' '.join(sunValue[6:9]). -/
def sunMtxRows (ncols : Nat) :
    List (List String) → List Nat → Option (List (List String))
  | [], _ => some []
  | _ :: _, [] => none
  | sv :: svs, h :: hs =>
    match makeRow ncols h (String.intercalate " " ((sv.drop 6).take 3)) with
    | none => none
    | some row => (sunMtxRows ncols svs hs).map (fun rows => row :: rows)

/-- The complete sun-matrix file content produced by a successful run of
SunMatrix.execute: header, per-source rows, and the trailing all-zero
ground row (sunmatrix.py lines 223-226). -/
structure SunMtxOutput where
  header : List String
  rows : List (List String)
  ground : List String
  sunValues : List (List String)
  sunUpHours : List Nat
deriving DecidableEq, Repr

/-- Embeds the generation phase of SunMatrix.execute (sunmatrix.py lines
135-228), from the per-hour gendaylit loop to the matrix file.  Returns
the hours for which gendaylit was invoked, and some output when execute
terminates normally, none when it raises. -/
def SunMatrix.executeGen (m : SunMatrix) (gd : Nat → List String) :
    List Nat × Option SunMtxOutput :=
  let latitude := m.wea.location.latitude
  let longitude := -m.wea.location.longitude
  let run := sunLoop m.wea.directNormalRadiation m.wea.diffuseHorizontalRadiation
    gd m.hoys [] []
  match run.2 with
  | none => (run.1, none)
  | some (sv, suh) =>
    match sunMtxRows m.hoys.length sv suh with
    | none => (run.1, none)
    | some rows =>
      (run.1, some
        { header := sunMtxFileHeader latitude (-longitude) suh.length m.hoys.length,
          rows := rows,
          ground := List.replicate m.hoys.length "0 0 0",
          sunValues := sv,
          sunUpHours := suh })

/-! ## Reading the sun-matrix header back

The spec's round-trip property needs a parser for the header block.  The
parser works on character lists: a header line is recognized by stripping
a concrete key= pattern, and the value is read back as a decimal
numeral. -/

/-- Strips an expected character pattern from the front of a line,
returning the rest of the line when the pattern matches. -/
def stripKey : List Char → List Char → Option (List Char)
  | [], l => some l
  | _ :: _, [] => none
  | p :: ps, c :: cs => if c = p then stripKey ps cs else none

/-- Finds the first header line starting with the given pattern and
returns the rest of that line. -/
def headerLookup (pat : List Char) : List String → Option String
  | [] => none
  | l :: rest =>
    match stripKey pat l.data with
    | some v => some (String.mk v)
    | none => headerLookup pat rest

/-- Reads a nonempty all-digit string back as a natural number. -/
def parseNat (s : String) : Option Nat :=
  if s.data ≠ [] ∧ s.data.all (fun c => c.isDigit) then
    some (s.data.foldl (fun a c => a * 10 + digitVal c) 0)
  else none

/-- Reads the numeric value of a KEY=value header line. -/
def headerNat (key : String) (lines : List String) : Option Nat :=
  (headerLookup (key.data ++ ['=']) lines).bind parseNat

/-- Most-significant-first decimal digits of a natural number (0 is the
single digit 0), used to relate Nat.repr to Nat.digits. -/
def decDigits (n : Nat) : List Nat :=
  if n = 0 then [0] else (Nat.digits 10 n).reverse

/-! ## GridBased and DaylightCoeffGridBased recipes -/

/-- Embeds an AnalysisGrid as consumed by the results assemblers: its
point count (len(analysisGrid)) and its per-point result rows. -/
structure AnalysisGrid where
  size : Nat
  values : List (List ℚ)
deriving DecidableEq, Repr

/-- Modelled from the spec: AnalysisGrid.setValuesFromFile is not under
src/ (only its callers are).  Spec 4.5: the assembler assigns each grid a
contiguous row slice of the results file, starting at the running row
offset, one row per point of the grid; the per-hour association of the
values inside a row is not modelled. -/
def setValuesFromFile (g : AnalysisGrid) (rows : List (List ℚ)) (startLine : Nat) :
    AnalysisGrid :=
  { g with values := (rows.drop startLine).take g.size }

/-- Embeds the assignment loop of GridBased.results (gridbased.py lines
238-245): startLine starts at 0 and grows by the previous grid's length
before each later grid is assigned. -/
def assignGridsGo (rows : List (List ℚ)) : Nat → List AnalysisGrid → List AnalysisGrid
  | _, [] => []
  | startLine, g :: rest =>
    setValuesFromFile g rows startLine :: assignGridsGo rows (startLine + g.size) rest

/-- Embeds GridBased.results (gridbased.py lines 227-247).  The first
component is the outcome (the assert on isCalculated raises a StateError
before anything else runs); the second component is the analysis-grid
state the caller observes after the call. -/
def gridBasedResults (isCalculated : Bool) (grids : List AnalysisGrid)
    (rows : List (List ℚ)) : Except String Unit × List AnalysisGrid :=
  if isCalculated then (Except.ok (), assignGridsGo rows 0 grids)
  else (Except.error "You haven't run the Recipe yet. Use self.run to run the analysis before loading the results.", grids)

/-- Embeds the file loop of DaylightCoeffGridBased.results (dc/gridbased.py
lines 230-232): every results file is assigned to analysisGrids[0]; an
empty grid list would raise IndexError (none). -/
def dcApplyFiles : List (List (List ℚ)) → List AnalysisGrid → Option (List AnalysisGrid)
  | [], grids => some grids
  | f :: fs, grids =>
    match grids with
    | [] => none
    | g0 :: rest => dcApplyFiles fs (setValuesFromFile g0 f 0 :: rest)

/-- Embeds DaylightCoeffGridBased.results (dc/gridbased.py lines 224-233),
with the same outcome/state convention as gridBasedResults. -/
def dcResults (isCalculated : Bool) (grids : List AnalysisGrid)
    (files : List (List (List ℚ))) : Except String Unit × List AnalysisGrid :=
  if isCalculated then
    match dcApplyFiles files grids with
    | some gs => (Except.ok (), gs)
    | none => (Except.error "IndexError", grids)
  else (Except.error "You haven't run the Recipe yet. Use self.run to run the analysis before loading the results.", grids)

/-- Embeds the sky interface consumed by GridBased.simulationType
(gridbased.py line 117): only isClimateBased is inspected. -/
structure RadSky where
  isClimateBased : Bool
deriving DecidableEq, Repr

/-- Embeds the GridBased.simulationType setter (gridbased.py lines
105-120) for an integer argument: the range assert runs first, then, for
value 1 (radiation), the climate-based assert on the sky.  A failed assert
is a raised error. -/
def setSimulationType (sky : RadSky) (value : Int) : Except String Int :=
  if ¬(0 ≤ value ∧ value ≤ 2) then
    Except.error "Simulation type should be between 0-2."
  else if value = 1 ∧ ¬sky.isClimateBased then
    Except.error "The sky for radition analysis should be climate-based."
  else Except.ok value

/-! ## ImageBasedParameters.quality -/

/-- A radiance parameter value: numeric or boolean flag. -/
inductive RadValue where
  | num (q : ℚ)
  | flag (b : Bool)
deriving DecidableEq, Repr

/-- The attribute state of a parameter object: for each attribute name,
its current value if any.  setattr on a registered radiance attribute
stores the value; unregistered keys are simply absent (none). -/
abbrev ParamState := String → Option RadValue

/-- Embeds setattr(self, name, v) for a radiance attribute. -/
def setattrV (st : ParamState) (k : String) (v : RadValue) : ParamState :=
  fun q => if q = k then some v else st q

/-- Embeds the list indexing data['values'][self.quality] for a 3-element
values list; the quality setter's assert guarantees the index is 0..2. -/
def pick3 {α : Type} (vals : α × α × α) (q : Nat) : α :=
  match q with
  | 0 => vals.1
  | 1 => vals.2.1
  | _ => vals.2.2

/-- Embeds the ImageBasedParameters.quality setter (imagebased.py lines
419-441).  The tier tables rpict_number_parameters and
rpict_boolean_parameters live in parameters/_defaultset.py, which is not
under src/, so the setter is embedded relative to arbitrary tables (an
attribute name with its three per-tier values; Python dict keys are
unique).  Argument none embeds quality=None, which the expression
value or 0 turns into tier 0.  The assert rejects values outside 0..2;
otherwise every table entry is registered and set to its tier value
(addRadianceNumber / addRadianceBoolFlag followed by setattr), numbers
first, booleans second, and every other attribute keeps its prior
value. -/
def setQuality (numTable : List (String × (ℚ × ℚ × ℚ)))
    (boolTable : List (String × (Bool × Bool × Bool)))
    (st : ParamState) (value : Option Int) : Except String (Nat × ParamState) :=
  let v : Int := match value with | none => 0 | some x => x
  if 0 ≤ v ∧ v ≤ 2 then
    let q := v.toNat
    let st1 := numTable.foldl (fun s kv => setattrV s kv.1 (RadValue.num (pick3 kv.2 q))) st
    let st2 := boolTable.foldl
      (fun s kv => setattrV s kv.1 (RadValue.flag (pick3 kv.2 q))) st1
    Except.ok (q, st2)
  else Except.error "Quality can only be 0:low, 1: medium or 2: high quality"

/-- Modelled from the spec: the numeric tier table of _defaultset.py is
not under src/.  Values are the canonical per-tier defaults documented in
the ImageBasedParameters class docstring (imagebased.py lines 20-34),
keyed by flag name, as (low, medium, high). -/
def rpictNumberTable : List (String × (ℚ × ℚ × ℚ)) :=
  [("aa", (0.25, 0.2, 0.1)),
   ("ab", (2, 3, 6)),
   ("ad", (512, 2048, 4096)),
   ("dc", (0.25, 0.5, 0.75)),
   ("st", (0.85, 0.5, 0.15)),
   ("lw", (0.05, 0.01, 0.005)),
   ("as", (128, 2048, 4096)),
   ("ar", (16, 64, 128)),
   ("lr", (4, 6, 8)),
   ("dt", (0.5, 0.25, 0.15)),
   ("dr", (0, 1, 3)),
   ("ds", (0.5, 0.25, 0.05)),
   ("dp", (64, 256, 512))]

/-- Modelled from the spec: the boolean tier table of _defaultset.py is
not under src/.  No boolean flag appears in the documented per-tier
toRadString outputs, so every documented tier default is off. -/
def rpictBooleanTable : List (String × (Bool × Bool × Bool)) :=
  [("u", (false, false, false))]

/-! ## Concrete inputs used by witnesses and counterexamples -/

/-- A cleaned gendaylit token list for a sunlit hour, as lines 174-180 of
sunmatrix.py produce it: a light material whose radiance triplet occupies
tokens 6..8 and a source definition whose name occupies token 9. -/
def gdTokens : List String :=
  ["void", "light", "solar", "0", "0", "3", "4576", "4576", "4576",
   "solar", "source", "sun", "0", "0", "4", "0.16", "-0.48", "0.86", "0.533"]

/-- Weather with sun only at hour 11 (direct 800, diffuse 0); every other
hour has zero direct and diffuse irradiance. -/
def weaH11 : Wea :=
  { location := { stationId := "724940", latitude := 37, longitude := -122,
                  timezone := -8 },
    directNormalRadiation := fun h => if h = 11 then 800 else 0,
    diffuseHorizontalRadiation := fun _ => 0 }

/-- The failing input of the sparse-hours claim: requested hours 10, 11,
12 with only hour 11 sunlit. -/
def mSparse : SunMatrix := { wea := weaH11, north := 0, hoys := [10, 11, 12] }

/-- The gendaylit oracle for the concrete runs: every invoked hour yields
the token list gdTokens. -/
def gdOracle : Nat → List String := fun _ => gdTokens

/-- Weather with sun only at hour 1. -/
def weaH1 : Wea :=
  { location := { stationId := "724940", latitude := 37, longitude := -122,
                  timezone := -8 },
    directNormalRadiation := fun h => if h = 1 then 800 else 0,
    diffuseHorizontalRadiation := fun _ => 0 }

/-- A run on which execute terminates normally: requested hours 0 and 1,
only hour 1 sunlit (and 1 happens to be within row range). -/
def mDense : SunMatrix := { wea := weaH1, north := 0, hoys := [0, 1] }

/-- Two locations that differ only in timezone. -/
def locTzA : Location :=
  { stationId := "724940", latitude := 37, longitude := -122, timezone := -8 }

/-- Same station, latitude and longitude as locTzA, different timezone. -/
def locTzB : Location :=
  { stationId := "724940", latitude := 37, longitude := -122, timezone := -5 }

/-- SunMatrix over locTzA. -/
def mTzA : SunMatrix :=
  { wea := { location := locTzA,
             directNormalRadiation := fun _ => 0,
             diffuseHorizontalRadiation := fun _ => 0 },
    north := 0, hoys := [0] }

/-- SunMatrix over locTzB: differs from mTzA only in the location's
timezone. -/
def mTzB : SunMatrix :=
  { wea := { location := locTzB,
             directNormalRadiation := fun _ => 0,
             diffuseHorizontalRadiation := fun _ => 0 },
    north := 0, hoys := [0] }

/-- Three grids of sizes 3, 5 and 2 sharing one results file. -/
def grids352 : List AnalysisGrid := [⟨3, []⟩, ⟨5, []⟩, ⟨2, []⟩]

/-- Ten distinguishable result rows. -/
def rows10 : List (List ℚ) := (List.range 10).map (fun r => [(r : ℚ)])

/-- A parameter state holding one prior value on a key that no tier table
controls. -/
def stPrior : ParamState :=
  fun k => if k = "ps" then some (RadValue.num 1) else none

/-! ## Theorems

Helper lemmas first (decimal round trip for the header parser, fold
lemmas for the embeddings), then one theorem per claim, each preceded by
a doc comment naming the claim. -/

theorem decDigits_eq_of_div_eq_zero (n : Nat) (h0 : n / 10 = 0) :
    decDigits n = [n % 10] := by
  unfold decDigits
  by_cases hn : n = 0
  · simp [hn]
  · have h10 : n < 10 := by omega
    rw [if_neg hn, Nat.digits_def' (by norm_num : 1 < 10) (Nat.pos_of_ne_zero hn), h0]
    simp [Nat.mod_eq_of_lt h10]

theorem decDigits_eq_append (n : Nat) (h0 : n / 10 ≠ 0) :
    decDigits n = decDigits (n / 10) ++ [n % 10] := by
  have hn : n ≠ 0 := by
    intro h; subst h; simp at h0
  have hq : n / 10 ≠ 0 := h0
  unfold decDigits
  rw [if_neg hn, if_neg hq, Nat.digits_def' (by norm_num : 1 < 10) (Nat.pos_of_ne_zero hn)]
  simp

theorem toDigitsCore_eq (f : Nat) :
    ∀ (n : Nat) (acc : List Char), n < f →
      Nat.toDigitsCore 10 f n acc = (decDigits n).map Nat.digitChar ++ acc := by
  induction f with
  | zero => intro n acc h; omega
  | succ f ih =>
    intro n acc h
    rw [Nat.toDigitsCore]
    by_cases h0 : n / 10 = 0
    · simp only [h0, if_pos]
      rw [decDigits_eq_of_div_eq_zero n h0]
      simp
    · simp only [h0, if_neg h0]
      have hlt : n / 10 < f := by
        have h1 : n / 10 < n := Nat.div_lt_self (by omega) (by norm_num)
        omega
      rw [ih (n / 10) (Nat.digitChar (n % 10) :: acc) hlt,
        decDigits_eq_append n h0]
      simp

theorem repr_data_eq (n : Nat) :
    (Nat.repr n).data = (decDigits n).map Nat.digitChar := by
  show (Nat.toDigits 10 n).asString.data = _
  show Nat.toDigitsCore 10 (n + 1) n [] = _
  rw [toDigitsCore_eq (n + 1) n [] (Nat.lt_succ_self n)]
  simp

theorem digitChar_isDigit : ∀ d : Nat, d < 10 → (Nat.digitChar d).isDigit = true := by
  decide

theorem digitVal_digitChar : ∀ d : Nat, d < 10 → digitVal (Nat.digitChar d) = d := by
  decide

theorem decDigits_lt (n : Nat) : ∀ d ∈ decDigits n, d < 10 := by
  intro d hd
  unfold decDigits at hd
  by_cases hn : n = 0
  · simp [hn] at hd; omega
  · rw [if_neg hn, List.mem_reverse] at hd
    exact Nat.digits_lt_base (by norm_num) hd

theorem decDigits_ne_nil (n : Nat) : decDigits n ≠ [] := by
  unfold decDigits
  by_cases hn : n = 0
  · simp [hn]
  · rw [if_neg hn]
    simp [Nat.digits_ne_nil_iff_ne_zero, hn]

theorem foldl_reverse_digits (l : List Nat) :
    ∀ a : Nat, l.reverse.foldl (fun a d => a * 10 + d) a =
      a * 10 ^ l.length + Nat.ofDigits 10 l := by
  induction l with
  | nil => intro a; simp [Nat.ofDigits_nil]
  | cons d t ih =>
    intro a
    rw [List.reverse_cons, List.foldl_append, ih]
    simp only [List.foldl_cons, List.foldl_nil, Nat.ofDigits_cons, List.length_cons]
    push_cast [pow_succ]
    ring

theorem foldl_digitVal_eq (l : List Nat) (hl : ∀ d ∈ l, d < 10) :
    ∀ a : Nat,
      l.foldl (fun a d => a * 10 + digitVal (Nat.digitChar d)) a =
      l.foldl (fun a d => a * 10 + d) a := by
  induction l with
  | nil => intro a; rfl
  | cons d t ih =>
    intro a
    simp only [List.foldl_cons]
    rw [digitVal_digitChar d (hl d (by simp)), ih (fun x hx => hl x (by simp [hx]))]

theorem foldl_decDigits (n : Nat) :
    (decDigits n).foldl (fun a d => a * 10 + d) 0 = n := by
  unfold decDigits
  by_cases hn : n = 0
  · simp [hn]
  · rw [if_neg hn, foldl_reverse_digits (Nat.digits 10 n) 0]
    simp [Nat.ofDigits_digits]

theorem parseNat_repr (n : Nat) : parseNat (Nat.repr n) = some n := by
  unfold parseNat
  rw [repr_data_eq]
  have h1 : (decDigits n).map Nat.digitChar ≠ [] := by
    simp [decDigits_ne_nil n]
  have h2 : ((decDigits n).map Nat.digitChar).all (fun c => c.isDigit) = true := by
    rw [List.all_eq_true]
    intro c hc
    rw [List.mem_map] at hc
    obtain ⟨d, hd, rfl⟩ := hc
    exact digitChar_isDigit d (decDigits_lt n d hd)
  rw [if_pos ⟨h1, h2⟩, List.foldl_map,
    foldl_digitVal_eq (decDigits n) (decDigits_lt n) 0, foldl_decDigits]

theorem headerNat_NROWS (lat lon : ℚ) (nsuns ncols : Nat) :
    headerNat "NROWS" (sunMtxFileHeader lat lon nsuns ncols) = some nsuns := by
  show parseNat (Nat.repr nsuns) = some nsuns
  exact parseNat_repr nsuns

theorem headerNat_NCOLS (lat lon : ℚ) (nsuns ncols : Nat) :
    headerNat "NCOLS" (sunMtxFileHeader lat lon nsuns ncols) = some ncols := by
  show parseNat (Nat.repr ncols) = some ncols
  exact parseNat_repr ncols

theorem headerNat_NCOMP (lat lon : ℚ) (nsuns ncols : Nat) :
    headerNat "NCOMP" (sunMtxFileHeader lat lon nsuns ncols) = some 3 := by
  show parseNat "3" = some 3
  rfl

/-- Claim C2: execute(workingDir, reuse=True) skips regeneration and
returns the three cached paths if and only if the sidecar hours file
exists with content exactly the comma-joined decimal hour list of the
current request followed by a newline, and the analemma, sun-list and
sun-matrix files all exist; with reuse=False regeneration always
happens. -/
theorem C2_cache_reuse_exact (m : SunMatrix) (fs : FS) (wd : String) (reuse : Bool) :
    m.executeReuseStep fs wd reuse = true ↔
      reuse = true ∧
      fs (pathJoin wd (m.name ++ ".hrs")) = some (joinHoys m.hoys ++ "\n") ∧
      isfile fs (pathJoin wd m.analemmafile) = true ∧
      isfile fs (pathJoin wd m.sunlistfile) = true ∧
      isfile fs (pathJoin wd m.sunmtxfile) = true := by
  unfold SunMatrix.executeReuseStep SunMatrix.hoursMatch
  cases reuse with
  | false => simp
  | true =>
    cases hf : fs (pathJoin wd (m.name ++ ".hrs")) with
    | none => simp [hf]
    | some line =>
      by_cases hl : line = joinHoys m.hoys ++ "\n"
      · subst hl
        simp [hf, and_assoc]
      · have hb : (line == joinHoys m.hoys ++ "\n") = false := by
          simp [hl]
        simp [hf, hb, hl]

/-- Claim C8: setting simulationType to 1 (radiation) raises for a
non-climate-based sky and succeeds for a climate-based sky. -/
theorem C8_radiation_needs_climate_based (sky : RadSky) :
    (sky.isClimateBased = false →
      setSimulationType sky 1 =
        Except.error "The sky for radition analysis should be climate-based.") ∧
    (sky.isClimateBased = true → setSimulationType sky 1 = Except.ok 1) := by
  constructor <;> intro h <;> simp [setSimulationType, h]

/-- Witness for C8 at the two concrete skies. -/
theorem C8_radiation_needs_climate_based_witness :
    setSimulationType ⟨false⟩ 1 =
      Except.error "The sky for radition analysis should be climate-based." ∧
    setSimulationType ⟨true⟩ 1 = Except.ok 1 :=
  ⟨(C8_radiation_needs_climate_based ⟨false⟩).1 rfl,
   (C8_radiation_needs_climate_based ⟨true⟩).2 rfl⟩

/-- Claim C9: on both recipes, calling results() with isCalculated false
raises the StateError and leaves every analysis grid unchanged. -/
theorem C9_results_before_run (grids : List AnalysisGrid) (rows : List (List ℚ))
    (files : List (List (List ℚ))) :
    gridBasedResults false grids rows =
      (Except.error "You haven't run the Recipe yet. Use self.run to run the analysis before loading the results.", grids) ∧
    dcResults false grids files =
      (Except.error "You haven't run the Recipe yet. Use self.run to run the analysis before loading the results.", grids) :=
  ⟨rfl, rfl⟩

theorem dcApplyFiles_cons (files : List (List (List ℚ))) :
    ∀ (g0 : AnalysisGrid) (rest : List AnalysisGrid),
      dcApplyFiles files (g0 :: rest) =
        some (files.foldl (fun g f => setValuesFromFile g f 0) g0 :: rest) := by
  induction files with
  | nil => intro g0 rest; rfl
  | cons f fs ih =>
    intro g0 rest
    simp only [dcApplyFiles, List.foldl_cons]
    exact ih (setValuesFromFile g0 f 0) rest

/-- Claim C5: DaylightCoeffGridBased.results assigns every results file
to the first analysis grid only; every grid after the first is returned
unchanged. -/
theorem C5_dc_results_first_grid_only (files : List (List (List ℚ)))
    (g0 : AnalysisGrid) (rest : List AnalysisGrid) :
    dcResults true (g0 :: rest) files =
      (Except.ok (), files.foldl (fun g f => setValuesFromFile g f 0) g0 :: rest) := by
  simp [dcResults, dcApplyFiles_cons]

theorem assignGridsGo_getElem (rows : List (List ℚ)) :
    ∀ (grids : List AnalysisGrid) (s i : Nat) (h : i < grids.length),
      (assignGridsGo rows s grids)[i]? =
        some (setValuesFromFile grids[i] rows
          (s + ((grids.take i).map AnalysisGrid.size).sum)) := by
  intro grids
  induction grids with
  | nil => intro s i h; simp at h
  | cons g rest ih =>
    intro s i h
    cases i with
    | zero => simp [assignGridsGo]
    | succ j =>
      have hj : j < rest.length := by simpa using h
      simp only [assignGridsGo, List.getElem?_cons_succ, List.getElem_cons_succ,
        List.take_succ_cons, List.map_cons, List.sum_cons]
      rw [ih (s + g.size) j hj]
      congr 2
      omega

/-- Claim C4: GridBased.results assigns grid i the contiguous row slice
of the shared results file starting at the sum of the previous grids'
point counts, of length equal to grid i's point count (the slice is the
values field of setValuesFromFile). -/
theorem C4_grid_row_offsets (grids : List AnalysisGrid) (rows : List (List ℚ))
    (i : Nat) (h : i < grids.length) :
    (gridBasedResults true grids rows).2[i]? =
      some (setValuesFromFile grids[i] rows
        (((grids.take i).map AnalysisGrid.size).sum)) := by
  have := assignGridsGo_getElem rows grids 0 i h
  simpa [gridBasedResults] using this

/-- Witness for C4 on grids of sizes 3, 5, 2 over a 10-row file: grid 1
receives rows 3..7 and grid 2 receives rows 8..9. -/
theorem C4_grid_row_offsets_witness :
    ((gridBasedResults true grids352 rows10).2[1]? =
      some (setValuesFromFile (grids352.get ⟨1, by decide⟩) rows10
        (((grids352.take 1).map AnalysisGrid.size).sum)) ∧
     (gridBasedResults true grids352 rows10).2[2]? =
      some (setValuesFromFile (grids352.get ⟨2, by decide⟩) rows10
        (((grids352.take 2).map AnalysisGrid.size).sum))) ∧
    (setValuesFromFile (grids352.get ⟨1, by decide⟩) rows10 3).values =
      [[3], [4], [5], [6], [7]] ∧
    (setValuesFromFile (grids352.get ⟨2, by decide⟩) rows10 8).values =
      [[8], [9]] :=
  ⟨⟨C4_grid_row_offsets grids352 rows10 1 (by decide),
    C4_grid_row_offsets grids352 rows10 2 (by decide)⟩,
   by decide, by decide⟩

theorem foldl_setattr_notMem {β : Type} (T : List (String × β))
    (f : String × β → RadValue) (st : ParamState) (k : String)
    (hk : k ∉ T.map Prod.fst) :
    (T.foldl (fun s kv => setattrV s kv.1 (f kv)) st) k = st k := by
  induction T generalizing st with
  | nil => rfl
  | cons kv rest ih =>
    simp only [List.map_cons, List.mem_cons, not_or] at hk
    rw [List.foldl_cons, ih (setattrV st kv.1 (f kv)) hk.2]
    simp [setattrV, hk.1]

theorem foldl_setattr_mem {β : Type} (T : List (String × β))
    (f : String × β → RadValue) (st : ParamState) (k : String) (v : β)
    (hT : (T.map Prod.fst).Nodup) (hkv : (k, v) ∈ T) :
    (T.foldl (fun s kv => setattrV s kv.1 (f kv)) st) k = some (f (k, v)) := by
  induction T generalizing st with
  | nil => simp at hkv
  | cons kv rest ih =>
    simp only [List.map_cons, List.nodup_cons] at hT
    rcases List.mem_cons.mp hkv with h | h
    · subst h
      rw [List.foldl_cons, foldl_setattr_notMem rest f _ k hT.1]
      simp [setattrV]
    · rw [List.foldl_cons]
      exact ih (setattrV st kv.1 (f kv)) hT.2 h

/-- Claim C7: for a quality tier t in 0..2, the quality setter assigns
every tier-controlled parameter (an entry of the number or boolean tier
table; table keys are unique as Python dict keys) exactly the tier's
canonical value, leaves every other attribute at its prior value, and a
quality value outside 0..2 fails with the validation error. -/
theorem C7_quality_tier (numTable : List (String × (ℚ × ℚ × ℚ)))
    (boolTable : List (String × (Bool × Bool × Bool)))
    (st : ParamState) (t : Int)
    (hkeys : (numTable.map Prod.fst ++ boolTable.map Prod.fst).Nodup)
    (ht : 0 ≤ t ∧ t ≤ 2) :
    ∃ st2 : ParamState,
      setQuality numTable boolTable st (some t) = Except.ok (t.toNat, st2) ∧
      (∀ k v, (k, v) ∈ numTable → st2 k = some (RadValue.num (pick3 v t.toNat))) ∧
      (∀ k v, (k, v) ∈ boolTable → st2 k = some (RadValue.flag (pick3 v t.toNat))) ∧
      (∀ k, k ∉ numTable.map Prod.fst → k ∉ boolTable.map Prod.fst → st2 k = st k) ∧
      (∀ t2 : Int, ¬(0 ≤ t2 ∧ t2 ≤ 2) →
        setQuality numTable boolTable st (some t2) =
          Except.error "Quality can only be 0:low, 1: medium or 2: high quality") := by
  rw [List.nodup_append] at hkeys
  obtain ⟨hnum, hbool, hdisj⟩ := hkeys
  have hq : setQuality numTable boolTable st (some t) =
      Except.ok (t.toNat,
        boolTable.foldl
          (fun s kv => setattrV s kv.1 (RadValue.flag (pick3 kv.2 t.toNat)))
          (numTable.foldl
            (fun s kv => setattrV s kv.1 (RadValue.num (pick3 kv.2 t.toNat))) st)) := by
    simp [setQuality, ht]
  refine ⟨_, hq, ?_, ?_, ?_, ?_⟩
  · intro k v hkv
    have hkb : k ∉ boolTable.map Prod.fst := by
      intro hb
      exact hdisj (List.mem_map_of_mem Prod.fst hkv) hb
    rw [foldl_setattr_notMem boolTable _ _ k hkb]
    exact foldl_setattr_mem numTable _ st k v hnum hkv
  · intro k v hkv
    exact foldl_setattr_mem boolTable _ _ k v hbool hkv
  · intro k hkn hkb
    rw [foldl_setattr_notMem boolTable _ _ k hkb]
    exact foldl_setattr_notMem numTable _ st k hkn
  · intro t2 ht2
    simp [setQuality, ht2]

/-- Witness for C7 at tier 1 on the documented tier tables, starting from
a state whose only prior value sits on the non-tier key ps; the resulting
state carries the medium-quality value on ab and keeps ps. -/
theorem C7_quality_tier_witness :
    (∃ st2 : ParamState,
      setQuality rpictNumberTable rpictBooleanTable stPrior (some 1) =
        Except.ok ((1 : Int).toNat, st2) ∧
      (∀ k v, (k, v) ∈ rpictNumberTable →
        st2 k = some (RadValue.num (pick3 v (1 : Int).toNat))) ∧
      (∀ k v, (k, v) ∈ rpictBooleanTable →
        st2 k = some (RadValue.flag (pick3 v (1 : Int).toNat))) ∧
      (∀ k, k ∉ rpictNumberTable.map Prod.fst →
        k ∉ rpictBooleanTable.map Prod.fst → st2 k = stPrior k) ∧
      (∀ t2 : Int, ¬(0 ≤ t2 ∧ t2 ≤ 2) →
        setQuality rpictNumberTable rpictBooleanTable stPrior (some t2) =
          Except.error "Quality can only be 0:low, 1: medium or 2: high quality")) ∧
    (setQuality rpictNumberTable rpictBooleanTable stPrior (some 1)).toOption.map
      (fun p => (p.2 "ab", p.2 "ps", p.2 "zz")) =
      some (some (RadValue.num 3), some (RadValue.num 1), none) :=
  ⟨C7_quality_tier rpictNumberTable rpictBooleanTable stPrior 1
    (by decide) (by decide), by decide⟩

/-- Claim C10, counterexample: two SunMatrix objects whose locations
differ (in timezone) and whose density/rotation agree nevertheless get
the same name, so differing in location does not produce distinct
names. -/
theorem C10_name_counterexample :
    SunMatrix.name mTzA = SunMatrix.name mTzB ∧
    mTzA.wea.location ≠ mTzB.wea.location ∧
    mTzA.north = mTzB.north := by
  refine ⟨rfl, ?_, rfl⟩
  decide

/-- Claim C10 as amended: name is a deterministic function of the
location's stationId, latitude and longitude together with the north
rotation only; two SunMatrix objects agreeing on those four values
produce the same name (even when other location fields, such as the
timezone, differ, and with no density input at all). -/
theorem C10_name_deterministic (m1 m2 : SunMatrix)
    (hs : m1.wea.location.stationId = m2.wea.location.stationId)
    (hlat : m1.wea.location.latitude = m2.wea.location.latitude)
    (hlon : m1.wea.location.longitude = m2.wea.location.longitude)
    (hn : m1.north = m2.north) :
    m1.name = m2.name := by
  unfold SunMatrix.name
  rw [hs, hlat, hlon, hn]

/-- Witness for the amended C10 at the two concrete objects that differ
only in timezone. -/
theorem C10_name_deterministic_witness :
    SunMatrix.name mTzA = SunMatrix.name mTzB :=
  C10_name_deterministic mTzA mTzB rfl rfl rfl rfl

/-- Claim C1 (code bug): on requested hours 10, 11, 12 with only hour 11
sunlit, the loop retains hour 11 (gendaylit ran only for hour 11) but the
matrix writer indexes its 3-triplet row with the absolute hour of year 11
(sunmatrix.py line 220), which raises IndexError instead of writing the
nonzero triplet at column position 1; execute never produces the matrix
the claim describes. -/
theorem C1_sparse_hours_indexerror :
    SunMatrix.executeGen mSparse gdOracle = ([11], none) ∧
    ((sunLoop mSparse.wea.directNormalRadiation mSparse.wea.diffuseHorizontalRadiation
        gdOracle mSparse.hoys [] []).2.map Prod.snd) = some [11] ∧
    makeRow mSparse.hoys.length 11 "4576 4576 4576" = none ∧
    List.indexOf 11 mSparse.hoys = 1 := by
  refine ⟨?_, ?_, ?_, ?_⟩ <;> with_unfolding_all decide

theorem sunLoop_zero_not_called (dnr dhr : Nat → ℚ) (gd : Nat → List String)
    (h : Nat) (hz : dnr h + dhr h = 0) :
    ∀ (hoys : List Nat) (sv : List (List String)) (suh : List Nat),
      h ∉ (sunLoop dnr dhr gd hoys sv suh).1 := by
  intro hoys
  induction hoys with
  | nil => intro sv suh; simp [sunLoop]
  | cons h2 rest ih =>
    intro sv suh
    have hneq : dnr h2 + dhr h2 ≠ 0 → h ≠ h2 := fun he e => he (e ▸ hz)
    by_cases he : dnr h2 + dhr h2 = 0
    · simp only [sunLoop, if_pos he]
      exact ih sv suh
    · rcases hrc : retainCheck (gd h2) with _ | b
      · simp [sunLoop, if_neg he, hrc, hneq he]
      · cases b with
        | false =>
          simp only [sunLoop, if_neg he, hrc, List.mem_cons, not_or]
          exact ⟨hneq he, ih sv suh⟩
        | true =>
          by_cases hlen : 10 ≤ (gd h2).length
          · simp only [sunLoop, if_neg he, hrc, if_pos hlen, List.mem_cons, not_or]
            exact ⟨hneq he, ih _ _⟩
          · simp [sunLoop, if_neg he, hrc, if_neg hlen, hneq he]

theorem sunLoop_zero_not_retained (dnr dhr : Nat → ℚ) (gd : Nat → List String)
    (h : Nat) (hz : dnr h + dhr h = 0) :
    ∀ (hoys : List Nat) (sv : List (List String)) (suh : List Nat)
      (sv2 : List (List String)) (suh2 : List Nat),
      (sunLoop dnr dhr gd hoys sv suh).2 = some (sv2, suh2) →
      h ∉ suh → h ∉ suh2 := by
  intro hoys
  induction hoys with
  | nil =>
    intro sv suh sv2 suh2 hs hmem
    simp only [sunLoop, Option.some.injEq, Prod.mk.injEq] at hs
    rw [← hs.2]
    exact hmem
  | cons h2 rest ih =>
    intro sv suh sv2 suh2 hs hmem
    have hneq : dnr h2 + dhr h2 ≠ 0 → h ≠ h2 := fun he e => he (e ▸ hz)
    by_cases he : dnr h2 + dhr h2 = 0
    · simp only [sunLoop, if_pos he] at hs
      exact ih sv suh sv2 suh2 hs hmem
    · rcases hrc : retainCheck (gd h2) with _ | b
      · simp [sunLoop, if_neg he, hrc] at hs
      · cases b with
        | false =>
          simp only [sunLoop, if_neg he, hrc] at hs
          exact ih sv suh sv2 suh2 hs hmem
        | true =>
          by_cases hlen : 10 ≤ (gd h2).length
          · simp only [sunLoop, if_neg he, hrc, if_pos hlen] at hs
            refine ih _ _ sv2 suh2 hs ?_
            simp [hneq he, hmem]
          · simp [sunLoop, if_neg he, hrc, if_neg hlen] at hs

theorem executeGen_fst (m : SunMatrix) (gd : Nat → List String) :
    (m.executeGen gd).1 =
      (sunLoop m.wea.directNormalRadiation m.wea.diffuseHorizontalRadiation
        gd m.hoys [] []).1 := by
  rcases hr : (sunLoop m.wea.directNormalRadiation m.wea.diffuseHorizontalRadiation
      gd m.hoys [] []).2 with _ | ⟨sv, suh⟩
  · simp [SunMatrix.executeGen, hr]
  · rcases hrows : sunMtxRows m.hoys.length sv suh with _ | rows <;>
      simp [SunMatrix.executeGen, hr, hrows]

theorem executeGen_some (m : SunMatrix) (gd : Nat → List String) (out : SunMtxOutput)
    (hout : (m.executeGen gd).2 = some out) :
    ∃ sv suh rows,
      (sunLoop m.wea.directNormalRadiation m.wea.diffuseHorizontalRadiation
        gd m.hoys [] []).2 = some (sv, suh) ∧
      sunMtxRows m.hoys.length sv suh = some rows ∧
      out.header = sunMtxFileHeader m.wea.location.latitude
        (- -m.wea.location.longitude) suh.length m.hoys.length ∧
      out.rows = rows ∧ out.sunValues = sv ∧ out.sunUpHours = suh := by
  rcases hr : (sunLoop m.wea.directNormalRadiation m.wea.diffuseHorizontalRadiation
      gd m.hoys [] []).2 with _ | ⟨sv, suh⟩
  · simp [SunMatrix.executeGen, hr] at hout
  · rcases hrows : sunMtxRows m.hoys.length sv suh with _ | rows
    · simp [SunMatrix.executeGen, hr, hrows] at hout
    · simp only [SunMatrix.executeGen, hr, hrows, Option.some.injEq] at hout
      exact ⟨sv, suh, rows, rfl, hrows, by rw [← hout], by rw [← hout], by rw [← hout],
        by rw [← hout]⟩

/-- Claim C3: an hour with zero direct plus diffuse irradiance is never
passed to gendaylit and never appears among the retained sun-up hours of
the produced output, while the NCOLS header value equals the full
requested-hour-set length. -/
theorem C3_zero_irradiance_hours_skipped (m : SunMatrix) (gd : Nat → List String)
    (h : Nat)
    (hz : m.wea.directNormalRadiation h + m.wea.diffuseHorizontalRadiation h = 0) :
    h ∉ (m.executeGen gd).1 ∧
    ∀ out : SunMtxOutput, (m.executeGen gd).2 = some out →
      h ∉ out.sunUpHours ∧ headerNat "NCOLS" out.header = some m.hoys.length := by
  constructor
  · rw [executeGen_fst]
    exact sunLoop_zero_not_called _ _ gd h hz m.hoys [] []
  · intro out hout
    obtain ⟨sv, suh, rows, hloop, hrows, hhead, hr, hsv, hsuh⟩ :=
      executeGen_some m gd out hout
    constructor
    · rw [hsuh]
      exact sunLoop_zero_not_retained _ _ gd h hz m.hoys [] [] sv suh hloop
        (List.not_mem_nil h)
    · rw [hhead]
      exact headerNat_NCOLS _ _ _ _

/-- Witness for C3: hour 0 of the two-hour run has zero irradiance; it is
neither passed to gendaylit nor retained, and the run succeeds. -/
theorem C3_zero_irradiance_hours_skipped_witness :
    (weaH1.directNormalRadiation 0 + weaH1.diffuseHorizontalRadiation 0 = 0) ∧
    (0 ∉ (mDense.executeGen gdOracle).1 ∧
      ∀ out : SunMtxOutput, (mDense.executeGen gdOracle).2 = some out →
        0 ∉ out.sunUpHours ∧ headerNat "NCOLS" out.header = some mDense.hoys.length) ∧
    ((mDense.executeGen gdOracle).2.map (fun out => out.sunUpHours)) = some [1] :=
  ⟨by with_unfolding_all decide,
   C3_zero_irradiance_hours_skipped mDense gdOracle 0 (by with_unfolding_all decide),
   by with_unfolding_all decide⟩

theorem sunMtxRows_length (ncols : Nat) :
    ∀ (sv : List (List String)) (suh : List Nat) (rows : List (List String)),
      sunMtxRows ncols sv suh = some rows → rows.length = sv.length := by
  intro sv
  induction sv with
  | nil =>
    intro suh rows h
    simp only [sunMtxRows, Option.some.injEq] at h
    rw [← h]
  | cons v vs ih =>
    intro suh rows h
    cases suh with
    | nil => simp [sunMtxRows] at h
    | cons h2 hs =>
      simp only [sunMtxRows] at h
      cases hmr : makeRow ncols h2 (String.intercalate " " ((v.drop 6).take 3)) with
      | none => rw [hmr] at h; simp at h
      | some row =>
        rw [hmr] at h
        cases hrec : sunMtxRows ncols vs hs with
        | none => rw [hrec] at h; simp at h
        | some rs =>
          rw [hrec] at h
          simp at h
          rw [← h]
          simp [ih hs rs hrec]

theorem sunLoop_length_eq (dnr dhr : Nat → ℚ) (gd : Nat → List String) :
    ∀ (hoys : List Nat) (sv : List (List String)) (suh : List Nat)
      (sv2 : List (List String)) (suh2 : List Nat),
      (sunLoop dnr dhr gd hoys sv suh).2 = some (sv2, suh2) →
      sv.length = suh.length → sv2.length = suh2.length := by
  intro hoys
  induction hoys with
  | nil =>
    intro sv suh sv2 suh2 hs hlen
    simp only [sunLoop, Option.some.injEq, Prod.mk.injEq] at hs
    rw [← hs.1, ← hs.2]
    exact hlen
  | cons h2 rest ih =>
    intro sv suh sv2 suh2 hs hlen
    by_cases he : dnr h2 + dhr h2 = 0
    · simp only [sunLoop, if_pos he] at hs
      exact ih sv suh sv2 suh2 hs hlen
    · rcases hrc : retainCheck (gd h2) with _ | b
      · simp [sunLoop, if_neg he, hrc] at hs
      · cases b with
        | false =>
          simp only [sunLoop, if_neg he, hrc] at hs
          exact ih _ _ _ _ hs hlen
        | true =>
          by_cases hlen10 : 10 ≤ (gd h2).length
          · simp only [sunLoop, if_neg he, hrc, if_pos hlen10] at hs
            refine ih _ _ _ _ hs ?_
            simp [hlen]
          · simp [sunLoop, if_neg he, hrc, if_neg hlen10] at hs

/-- Claim C6: parsing the header of the matrix produced by a normally
terminating execute yields NROWS equal to the number of retained sunlit
sources (which also equals the number of written rows), NCOLS equal to
the requested-hour-set length and NCOMP equal to 3; with zero retained
hours the header still parses, with NROWS = 0. -/
theorem C6_header_roundtrip (m : SunMatrix) (gd : Nat → List String)
    (out : SunMtxOutput) (hout : (m.executeGen gd).2 = some out) :
    headerNat "NROWS" out.header = some out.sunUpHours.length ∧
    headerNat "NCOLS" out.header = some m.hoys.length ∧
    headerNat "NCOMP" out.header = some 3 ∧
    out.rows.length = out.sunUpHours.length ∧
    (out.sunUpHours = [] → headerNat "NROWS" out.header = some 0) := by
  obtain ⟨sv, suh, rows, hloop, hrows, hhead, hr, hsv, hsuh⟩ :=
    executeGen_some m gd out hout
  have hlen : rows.length = suh.length :=
    (sunMtxRows_length m.hoys.length sv suh rows hrows).trans
      (sunLoop_length_eq _ _ gd m.hoys [] [] sv suh hloop rfl)
  refine ⟨?_, ?_, ?_, ?_, ?_⟩
  · rw [hhead, hsuh]
    exact headerNat_NROWS _ _ _ _
  · rw [hhead]
    exact headerNat_NCOLS _ _ _ _
  · rw [hhead]
    exact headerNat_NCOMP _ _ _ _
  · rw [hr, hsuh]
    exact hlen
  · intro hz
    rw [hsuh] at hz
    rw [hhead, hz]
    exact headerNat_NROWS _ _ _ _

/-- Witness for C6: the two-hour run retains exactly hour 1 and its
header round-trips; the all-dark run retains nothing and still writes a
parseable header with NROWS = 0. -/
theorem C6_header_roundtrip_witness :
    (∃ out : SunMtxOutput,
      (mDense.executeGen gdOracle).2 = some out ∧
      headerNat "NROWS" out.header = some out.sunUpHours.length ∧
      headerNat "NCOLS" out.header = some mDense.hoys.length ∧
      headerNat "NCOMP" out.header = some 3 ∧
      out.rows.length = out.sunUpHours.length ∧
      out.sunUpHours = [1]) ∧
    (∃ out : SunMtxOutput,
      (mTzA.executeGen gdOracle).2 = some out ∧
      out.sunUpHours = [] ∧
      headerNat "NROWS" out.header = some 0) := by
  constructor
  · rcases heval : (mDense.executeGen gdOracle).2 with _ | out
    · exfalso
      revert heval
      with_unfolding_all decide
    · have h := C6_header_roundtrip mDense gdOracle out heval
      have h1 : (mDense.executeGen gdOracle).2.map SunMtxOutput.sunUpHours = some [1] := by
        with_unfolding_all decide
      rw [heval] at h1
      simp at h1
      exact ⟨out, rfl, h.1, h.2.1, h.2.2.1, h.2.2.2.1, h1⟩
  · rcases heval : (mTzA.executeGen gdOracle).2 with _ | out
    · exfalso
      revert heval
      with_unfolding_all decide
    · have h := C6_header_roundtrip mTzA gdOracle out heval
      have h1 : (mTzA.executeGen gdOracle).2.map SunMtxOutput.sunUpHours = some [] := by
        with_unfolding_all decide
      rw [heval] at h1
      simp at h1
      exact ⟨out, rfl, h1, h.2.2.2.2 h1⟩
